import Mathlib

/-!
Shallow embedding of the SAKA keyword classifier/transformer
(`cloud_functions/lib/search_term_transformer.py`) together with the shared
constants (`cloud_functions/constants.py`) and the settings loader of the
orchestrating Cloud Function (`cloud_functions/main.py`).

Numbers coming from the reports (conversions, clicks, ctr) and the numeric
thresholds are modelled as rationals `ℚ`. Python's `decimal.Decimal` values
are modelled by `PyDecimal` (a finite rational, a signed infinity, or a
quiet/signaling NaN); the constructor's numeric-string conversion is
embedded in `parseDecimal`, and `round(·, 2)` — a `quantize` to two places
under the default context — in `roundDecimal2`, including the cases where
the quantize step itself signals `InvalidOperation`.
-/

namespace Saka

/-! ### Constants from `cloud_functions/constants.py` -/

def GCP_PROJECT_ID : String := "GCP_PROJECT_ID"
def CUSTOMER_ID : String := "CUSTOMER_ID"
def SA360_SFTP_USERNAME : String := "SA360_SFTP_USERNAME"
def SA360_ACCOUNT_NAME : String := "SA360_ACCOUNT_NAME"
def SA360_LABEL : String := "SA360_LABEL"
def CLICKS_THRESHOLD : String := "CLICKS_THRESHOLD"
def CONVERSIONS_THRESHOLD : String := "CONVERSIONS_THRESHOLD"
def SEARCH_TERMS_TOKENS_THRESHOLD : String := "SEARCH_TERMS_TOKENS_THRESHOLD"
def CAMPAIGN_IDS : String := "CAMPAIGN_IDS"
def KEYWORD_LANDING_PAGE : String := "KEYWORD_LANDING_PAGE"
def KEYWORD_MAX_CPC : String := "KEYWORD_MAX_CPC"

def DEFAULT_CLICKS_THRESHOLD : Int := 5
def DEFAULT_CONVERSIONS_THRESHOLD : Int := 0
def DEFAULT_SEARCH_TERM_TOKENS_THRESHOLD : Int := 3
def DEFAULT_SA360_LABEL : String := "SA_add"

/-- Modelled from the spec: `constants.DEFAULT_SA360_ACCOUNT_NAME` is
referenced by `cloud_functions/main.py` but its definition is not among the
source files; the spec states that the account name defaults to `"Google"`. -/
def DEFAULT_SA360_ACCOUNT_NAME : String := "Google"

def MATCH_TYPE_BROAD : String := "broad"
def MATCH_TYPE_EXACT : String := "exact"
def MATCH_TYPE_PHRASE : String := "phrase"

def SA_360_COLUMN_ROW_TYPE : String := "Row type"
def SA_360_COLUMN_ACTION : String := "Action"
def SA_360_COLUMN_ACCOUNT : String := "Account"
def SA_360_COLUMN_CAMPAIGN : String := "Campaign"
def SA_360_COLUMN_AD_GROUP : String := "Ad group"
def SA_360_COLUMN_KEYWORD : String := "Keyword"
def SA_360_COLUMN_KEYWORD_MATCH_TYPE : String := "Keyword match type"
def SA_360_COLUMN_LABEL : String := "Label"
def SA_360_COLUMN_KEYWORD_LANDING_PAGE : String := "Keyword landing page"
def SA_360_COLUMN_KEYWORD_MAX_CPC : String := "Keyword max CPC"

def SA_360_BULKSHEET_COLUMNS : List String :=
  [SA_360_COLUMN_ROW_TYPE,
   SA_360_COLUMN_ACTION,
   SA_360_COLUMN_ACCOUNT,
   SA_360_COLUMN_CAMPAIGN,
   SA_360_COLUMN_AD_GROUP,
   SA_360_COLUMN_KEYWORD,
   SA_360_COLUMN_KEYWORD_MATCH_TYPE,
   SA_360_COLUMN_LABEL]

/-! ### Data model -/

/-- One row of the Google Ads search-term report (columns
`SEARCH_REPORT_COLUMNS`); only the fields read by the transformer are
modelled with meaningful values, the report's remaining string columns are
carried along unused. -/
structure SearchTermRow where
  search_term : String
  conversions : ℚ
  clicks : ℚ
  ad_group_name : String
  campaign_name : String
  ctr : ℚ
  report_status : String := ""
  campaign_id : String := ""
  keyword_text : String := ""
deriving DecidableEq, Repr

/-- One row of the ad-group report (columns `AD_GROUP_COLUMNS`). -/
structure AdGroupRow where
  ad_group_name : String
  ctr : ℚ
deriving DecidableEq, Repr

/-- A value of Python's `decimal.Decimal`: a finite rational, a signed
infinity, or a NaN (quiet or signaling). NaN payload digits are accepted by
the parser but not retained: no modelled behaviour depends on them. -/
inductive PyDecimal where
  | fin (q : ℚ)
  | inf (neg : Bool)
  | nan (signaling : Bool)
deriving DecidableEq, Repr

/-- A cell of the output bulksheet: either a string value or a numeric
(`decimal.Decimal`) value. -/
inductive CellValue where
  | str (s : String)
  | num (d : PyDecimal)
deriving DecidableEq, Repr

/-- An output row, as the ordered association of column names to cells
(mirroring the Python row dict's insertion order). -/
abbrev BulksheetRow := List (String × CellValue)

/-- The output table: `pd.DataFrame(rows, columns=bulksheet_columns)`. -/
structure DataFrame where
  columns : List String
  rows : List BulksheetRow
deriving DecidableEq, Repr

/-! ### Python `decimal.Decimal` parsing and rounding -/

/-- Value of a list of decimal digit characters. -/
def digitsToNat (ds : List Char) : ℕ :=
  ds.foldl (fun n c => 10 * n + (c.toNat - '0'.toNat)) 0

/-- Removal of leading and trailing whitespace, as `str.strip()` does before
the numeric-string conversion (whitespace modelled by `Char.isWhitespace`;
Python additionally strips some further Unicode space characters). -/
def stripWs (cs : List Char) : List Char :=
  ((cs.dropWhile Char.isWhitespace).reverse.dropWhile Char.isWhitespace).reverse

/-- The `decimal-part [exponent-part]` production of the numeric-string
grammar, applied after the sign: an integer part and/or a fractional part
(at least one digit between them) and an optional exponent. The characters
have already been lowercased, so the indicator is `e`. The value of
`ip.fp e expo` is `sign · digits(ip ++ fp) · 10 ^ (expo - |fp|)`, built here
directly as a normalized fraction. -/
def parseFinite (neg : Bool) (cs : List Char) : Option PyDecimal :=
  let ip := cs.takeWhile Char.isDigit
  let cs₂ := cs.dropWhile Char.isDigit
  let (fp, cs₃) : List Char × List Char :=
    match cs₂ with
    | '.' :: r => (r.takeWhile Char.isDigit, r.dropWhile Char.isDigit)
    | _ => ([], cs₂)
  if ip = [] ∧ fp = [] then none
  else
    let mant : ℤ :=
      (if neg then -1 else 1) * (digitsToNat (ip ++ fp) : ℤ)
    let parsedExp : Option ℤ :=
      match cs₃ with
      | [] => some 0
      | 'e' :: r =>
        let (eneg, r₁) : Bool × List Char :=
          match r with
          | '-' :: r₂ => (true, r₂)
          | '+' :: r₂ => (false, r₂)
          | _ => (false, r)
        let ed := r₁.takeWhile Char.isDigit
        let rest := r₁.dropWhile Char.isDigit
        if ed = [] ∨ rest ≠ [] then none
        else some ((if eneg then -1 else 1) * (digitsToNat ed : ℤ))
      | _ => none
    match parsedExp with
    | none => none
    | some expo =>
      let k : ℤ := expo - fp.length
      some (.fin (if 0 ≤ k then mkRat (mant * 10 ^ k.toNat) 1
                  else mkRat mant (10 ^ (-k).toNat)))

/-- Models the numeric-string conversion of `decimal.Decimal(str)`: leading
and trailing whitespace is stripped and underscores throughout are removed,
matching is case-insensitive, and the body after the optional sign is
`Infinity`/`Inf`, `NaN [digits]`, `sNaN [digits]`, or a finite
`decimal-part [exponent-part]`; any other input raises `InvalidOperation`,
modelled as `none`. Digits are modelled as the ASCII digits (Python also
accepts other Unicode decimal digits). -/
def parseDecimal (s : String) : Option PyDecimal :=
  let cs := ((stripWs s.toList).filter (fun c => c ≠ '_')).map Char.toLower
  let (neg, body) : Bool × List Char :=
    match cs with
    | '-' :: r => (true, r)
    | '+' :: r => (false, r)
    | _ => (false, cs)
  if body = ['i', 'n', 'f'] ∨
      body = ['i', 'n', 'f', 'i', 'n', 'i', 't', 'y'] then
    some (.inf neg)
  else if body.take 3 = ['n', 'a', 'n'] ∧ (body.drop 3).all Char.isDigit then
    some (.nan false)
  else if body.take 4 = ['s', 'n', 'a', 'n'] ∧
      (body.drop 4).all Char.isDigit then
    some (.nan true)
  else
    parseFinite neg body

/-- Nearest integer with ties to even, as used by `decimal`'s default
`ROUND_HALF_EVEN` context: with `x = num/den` in lowest terms and positive
denominator, `n = ⌊x⌋` and `r/den` the fractional part, round down when
`r/den < 1/2`, up when `r/den > 1/2`, and to the even neighbour on a tie. -/
def roundHalfEven (x : ℚ) : ℤ :=
  let d : ℤ := (x.den : ℤ)
  let n : ℤ := x.num.fdiv d
  let r : ℤ := x.num - n * d
  if 2 * r < d then n
  else if d < 2 * r then n + 1
  else if n % 2 = 0 then n else n + 1

/-- The precision of the default decimal context
(`decimal.getcontext().prec`). -/
def DECIMAL_CONTEXT_PREC : ℕ := 28

/-- `round(d, 2)` on a `decimal.Decimal`, that is `quantize` to two decimal
places under the default context: a quiet NaN propagates, an infinity or a
signaling NaN raises `InvalidOperation` (modelled as `none`), and a finite
value is rounded half-even — raising `InvalidOperation` when the rounded
coefficient needs more digits than the context precision of 28. -/
def roundDecimal2 : PyDecimal → Option PyDecimal
  | .nan false => some (.nan false)
  | .nan true => none
  | .inf _ => none
  | .fin q =>
    let n := roundHalfEven (mkRat (q.num * 100) q.den)
    if 10 ^ DECIMAL_CONTEXT_PREC ≤ n.natAbs then none
    else some (.fin (mkRat n 100))

/-- Python truthiness of the stored `_keyword_max_cpc` field: `None` is
falsy, a zero `Decimal` is falsy, and any other `Decimal` — NaN included —
is truthy. -/
def cpcTruthy : Option PyDecimal → Bool
  | none => false
  | some (.fin q) => q ≠ 0
  | some (.inf _) => true
  | some (.nan _) => true

/-! ### The transformer (`search_term_transformer.py`) -/

/-- The state of a constructed `SearchTermTransformer`: the `self._...`
fields set by `__init__`. -/
structure SearchTermTransformer where
  clicks_threshold : ℚ
  conversions_threshold : ℚ
  search_term_tokens_threshold : ℕ
  sa_account_name : String
  sa_label : String
  keyword_landing_page : String
  keyword_max_cpc : Option PyDecimal
deriving DecidableEq, Repr

/-- `SearchTermTransformer.__init__`: stores the thresholds and names, and —
when `keyword_max_cpc` is a non-empty string — evaluates
`round(decimal.Decimal(keyword_max_cpc), 2)`, raising (modelled as
`Except.error`) when either the `Decimal` constructor or the rounding step
signals. -/
def mkSearchTermTransformer (clicks_threshold conversions_threshold : ℚ)
    (search_term_tokens_threshold : ℕ) (sa_account_name sa_label : String)
    (keyword_landing_page keyword_max_cpc : String) :
    Except String SearchTermTransformer :=
  if keyword_max_cpc ≠ "" then
    match parseDecimal keyword_max_cpc with
    | some d =>
      match roundDecimal2 d with
      | some v =>
          .ok { clicks_threshold, conversions_threshold,
                search_term_tokens_threshold, sa_account_name, sa_label,
                keyword_landing_page, keyword_max_cpc := some v }
      | none => .error "InvalidOperation"
    | none => .error "InvalidOperation"
  else
    .ok { clicks_threshold, conversions_threshold,
          search_term_tokens_threshold, sa_account_name, sa_label,
          keyword_landing_page, keyword_max_cpc := none }

/-- Splitting a list of characters at every whitespace character, keeping
the (possibly empty) chunks between them. -/
def splitChunks : List Char → List (List Char)
  | [] => [[]]
  | c :: cs =>
    let rest := splitChunks cs
    if c.isWhitespace then [] :: rest
    else
      match rest with
      | [] => [[c]]
      | g :: gs => (c :: g) :: gs

/-- Python's `str.split()` with no argument: tokens are the maximal runs of
non-whitespace characters (empty chunks are discarded). -/
def pySplit (s : String) : List String :=
  ((splitChunks s.toList).filter (fun g => g ≠ [])).map (fun g => String.mk g)

/-- The CTR lookup at the start of `_get_match_type`: if the search-term
row's ad-group name does not occur among the ad-group report's
`ad_group_name` values the baseline CTR is `0`, otherwise it is the `ctr`
value of the first row of the report whose name matches. -/
def lookupAdGroupCtr (ad_groups : List AdGroupRow) (name : String) : ℚ :=
  if name ∈ ad_groups.map AdGroupRow.ad_group_name then
    match (ad_groups.filter (fun g => g.ad_group_name = name)).head? with
    | some g => g.ctr
    | none => 0
  else 0

/-- `SearchTermTransformer._get_match_type`. -/
def SearchTermTransformer.getMatchType (t : SearchTermTransformer)
    (search_term_row : SearchTermRow) (ad_groups : List AdGroupRow) :
    String × String :=
  let ad_group_ctr := lookupAdGroupCtr ad_groups search_term_row.ad_group_name
  if search_term_row.conversions > t.conversions_threshold ∨
      (search_term_row.ctr > ad_group_ctr ∧
        search_term_row.clicks > t.clicks_threshold) then
    let search_term_tokens := pySplit search_term_row.search_term
    if search_term_tokens.length > t.search_term_tokens_threshold then
      (MATCH_TYPE_BROAD, "")
    else
      (MATCH_TYPE_EXACT, MATCH_TYPE_PHRASE)
  else
    ("", "")

/-- The `optional_columns` dict built once per call of
`transform_search_terms_to_keywords` (keys in insertion order: landing page
first, then max CPC, each present exactly when its configured value is
truthy). -/
def SearchTermTransformer.optionalColumns (t : SearchTermTransformer) :
    List (String × CellValue) :=
  (if t.keyword_landing_page ≠ "" then
    [(SA_360_COLUMN_KEYWORD_LANDING_PAGE, CellValue.str t.keyword_landing_page)]
  else []) ++
  (if cpcTruthy t.keyword_max_cpc then
    [(SA_360_COLUMN_KEYWORD_MAX_CPC,
      CellValue.num (t.keyword_max_cpc.getD (.fin 0)))]
  else [])

/-- The `bulksheet_columns` list built once per call: the copied
`SA_360_BULKSHEET_COLUMNS` with the optional column names appended under the
same truthiness conditions as `optionalColumns`. -/
def SearchTermTransformer.bulksheetColumns (t : SearchTermTransformer) :
    List String :=
  SA_360_BULKSHEET_COLUMNS ++ t.optionalColumns.map Prod.fst

/-- The `row_to_append` dict for one match type of one search-term row: the
eight core entries in the source's literal order, then
`row_to_append.update(optional_columns)`, which appends the (fresh) optional
keys in their insertion order. -/
def SearchTermTransformer.rowToAppend (t : SearchTermTransformer)
    (search_term_row : SearchTermRow) (match_type : String) : BulksheetRow :=
  [(SA_360_COLUMN_ROW_TYPE, CellValue.str "keyword"),
   (SA_360_COLUMN_ACTION, CellValue.str "create"),
   (SA_360_COLUMN_ACCOUNT, CellValue.str t.sa_account_name),
   (SA_360_COLUMN_CAMPAIGN, CellValue.str search_term_row.campaign_name),
   (SA_360_COLUMN_AD_GROUP, CellValue.str search_term_row.ad_group_name),
   (SA_360_COLUMN_KEYWORD, CellValue.str search_term_row.search_term),
   (SA_360_COLUMN_KEYWORD_MATCH_TYPE, CellValue.str match_type),
   (SA_360_COLUMN_LABEL, CellValue.str t.sa_label)] ++
  t.optionalColumns

/-- `SearchTermTransformer.transform_search_terms_to_keywords`: for each
search-term row in order, compute its match types; skip the row when none is
truthy, otherwise append one `row_to_append` per truthy match type; finally
materialize `pd.DataFrame(rows, columns=bulksheet_columns)`. -/
def SearchTermTransformer.transform_search_terms_to_keywords
    (t : SearchTermTransformer) (search_results : List SearchTermRow)
    (ad_groups : List AdGroupRow) : DataFrame :=
  { columns := t.bulksheetColumns,
    rows := search_results.flatMap fun search_term_row =>
      let match_types := t.getMatchType search_term_row ad_groups
      let as_list := [match_types.1, match_types.2]
      if as_list.any (fun m => m ≠ "") then
        (as_list.filter (fun m => m ≠ "")).map
          (fun match_type => t.rowToAppend search_term_row match_type)
      else [] }

/-! ### Settings loading (`cloud_functions/main.py`) -/

/-- A settings value: environment variables are strings, while an unset
numeric setting falls back to its integer default. -/
inductive SettingValue where
  | str (s : String)
  | int (n : Int)
deriving DecidableEq, Repr

/-- `_REQUIRED_STR_SETTINGS`. -/
def REQUIRED_STR_SETTINGS : List (String × String) :=
  [(GCP_PROJECT_ID, ""),
   (CUSTOMER_ID, ""),
   (SA360_SFTP_USERNAME, ""),
   (SA360_ACCOUNT_NAME, DEFAULT_SA360_ACCOUNT_NAME),
   (SA360_LABEL, DEFAULT_SA360_LABEL)]

/-- `_REQUIRED_NUMERIC_SETTINGS`. -/
def REQUIRED_NUMERIC_SETTINGS : List (String × Int) :=
  [(CLICKS_THRESHOLD, DEFAULT_CLICKS_THRESHOLD),
   (CONVERSIONS_THRESHOLD, DEFAULT_CONVERSIONS_THRESHOLD),
   (SEARCH_TERMS_TOKENS_THRESHOLD, DEFAULT_SEARCH_TERM_TOKENS_THRESHOLD)]

/-- `_OPTIONAL_SETTINGS`. -/
def OPTIONAL_SETTINGS : List String :=
  [CAMPAIGN_IDS, KEYWORD_LANDING_PAGE, KEYWORD_MAX_CPC]

/-- `_load_settings`: reads each setting from the process environment
(modelled as a partial map from names to values), falling back to the
per-setting default when the variable is unset. -/
def loadSettings (env : String → Option String) :
    List (String × SettingValue) :=
  (REQUIRED_STR_SETTINGS.map fun p =>
    (p.1, SettingValue.str ((env p.1).getD p.2))) ++
  (REQUIRED_NUMERIC_SETTINGS.map fun p =>
    (p.1, match env p.1 with
      | some v => SettingValue.str v
      | none => SettingValue.int p.2)) ++
  (OPTIONAL_SETTINGS.map fun n =>
    (n, SettingValue.str ((env n).getD "")))

/-! ### Concrete sample inputs (the spec's round-trip scenario) -/

/-- A transformer built with the default thresholds
(`clicks=5, conversions=0, tokens=3`), default account name and label, and
no optional columns. -/
def sampleTransformer : SearchTermTransformer :=
  { clicks_threshold := 5, conversions_threshold := 0,
    search_term_tokens_threshold := 3, sa_account_name := "Google",
    sa_label := "SA_add", keyword_landing_page := "", keyword_max_cpc := none }

/-- The spec's round-trip scenario input row. -/
def sampleRow : SearchTermRow :=
  { search_term := "more than three tokens", conversions := 1, clicks := 6,
    ad_group_name := "ag1", campaign_name := "camp1", ctr := 1 }

/-- The spec's round-trip scenario ad-group row (`ag1` with CTR `0.5`). -/
def sampleAdGroup : AdGroupRow := { ad_group_name := "ag1", ctr := mkRat 1 2 }

/-! ### Shared lemmas -/

/-- The per-row emission of `transform_search_terms_to_keywords`, rephrased
by the qualification condition and the token count. -/
theorem flatMap_arg_eq (t : SearchTermTransformer) (ad_groups : List AdGroupRow)
    (row : SearchTermRow) :
    (let match_types := t.getMatchType row ad_groups
     let as_list := [match_types.1, match_types.2]
     if as_list.any (fun m => m ≠ "") then
       (as_list.filter (fun m => m ≠ "")).map
         (fun match_type => t.rowToAppend row match_type)
     else ([] : List BulksheetRow)) =
      (if row.conversions > t.conversions_threshold ∨
          (row.ctr > lookupAdGroupCtr ad_groups row.ad_group_name ∧
            row.clicks > t.clicks_threshold) then
        if (pySplit row.search_term).length > t.search_term_tokens_threshold then
          [t.rowToAppend row MATCH_TYPE_BROAD]
        else
          [t.rowToAppend row MATCH_TYPE_EXACT, t.rowToAppend row MATCH_TYPE_PHRASE]
      else []) := by
  by_cases h : row.conversions > t.conversions_threshold ∨
      (row.ctr > lookupAdGroupCtr ad_groups row.ad_group_name ∧
        row.clicks > t.clicks_threshold)
  · simp only [SearchTermTransformer.getMatchType, if_pos h]
    by_cases htok :
        (pySplit row.search_term).length > t.search_term_tokens_threshold
    · simp [htok, MATCH_TYPE_BROAD]
    · simp [htok, MATCH_TYPE_EXACT, MATCH_TYPE_PHRASE]
  · simp [SearchTermTransformer.getMatchType, if_neg h]

/-- Every emitted row is a `rowToAppend` for some input row and match
type. -/
theorem mem_transform_rows (t : SearchTermTransformer)
    (search_results : List SearchTermRow) (ad_groups : List AdGroupRow)
    (r : BulksheetRow)
    (hr : r ∈ (t.transform_search_terms_to_keywords search_results
      ad_groups).rows) :
    ∃ row match_type, r = t.rowToAppend row match_type := by
  simp only [SearchTermTransformer.transform_search_terms_to_keywords,
    List.mem_flatMap] at hr
  obtain ⟨row, -, hmem⟩ := hr
  split at hmem
  · rw [List.mem_map] at hmem
    obtain ⟨match_type, -, heq⟩ := hmem
    exact ⟨row, match_type, heq.symm⟩
  · exact absurd hmem (List.not_mem_nil r)

/-- A search-term row yields a non-empty match-type tuple exactly when the
qualification condition of `_get_match_type` holds. -/
theorem getMatchType_ne_iff (t : SearchTermTransformer)
    (row : SearchTermRow) (ad_groups : List AdGroupRow) :
    t.getMatchType row ad_groups ≠ ("", "") ↔
      (row.conversions > t.conversions_threshold ∨
        (row.ctr > lookupAdGroupCtr ad_groups row.ad_group_name ∧
          row.clicks > t.clicks_threshold)) := by
  constructor
  · intro hne
    by_contra h
    exact hne (by simp [SearchTermTransformer.getMatchType, if_neg h])
  · intro h
    simp only [SearchTermTransformer.getMatchType, if_pos h]
    by_cases htok :
        (pySplit row.search_term).length > t.search_term_tokens_threshold
    · simp [htok, MATCH_TYPE_BROAD]
    · simp [htok, MATCH_TYPE_EXACT]

/-- The column names of any `rowToAppend` row are exactly the invocation's
`bulksheetColumns`. -/
theorem rowToAppend_keys (t : SearchTermTransformer) (row : SearchTermRow)
    (match_type : String) :
    (t.rowToAppend row match_type).map Prod.fst = t.bulksheetColumns := by
  simp [SearchTermTransformer.rowToAppend,
    SearchTermTransformer.bulksheetColumns, SA_360_BULKSHEET_COLUMNS]

/-! ### Claim theorems -/

/-- C1: a search-term row qualifies as a candidate keyword (its match-type
tuple is not `("", "")`) if and only if `conversions > conversions_threshold`
or (`ctr >` the baseline ad-group CTR and `clicks > clicks_threshold`), all
comparisons strict; in particular a row equal to all three
thresholds/baselines does not qualify, and conversions strictly above the
threshold qualifies regardless of ctr and clicks. -/
theorem getMatchType_qualification_iff (t : SearchTermTransformer)
    (row : SearchTermRow) (ad_groups : List AdGroupRow) :
    t.getMatchType row ad_groups ≠ ("", "") ↔
      (row.conversions > t.conversions_threshold ∨
        (row.ctr > lookupAdGroupCtr ad_groups row.ad_group_name ∧
          row.clicks > t.clicks_threshold)) :=
  getMatchType_ne_iff t row ad_groups

/-- C2: the output rows are, in input-row order, the concatenation of the
per-row emissions: nothing for a non-qualifying row, exactly one `broad` row
for a qualifying row whose whitespace token count strictly exceeds
`search_term_tokens_threshold`, and exactly the two rows `exact` then
`phrase` otherwise (token count equal to the threshold included). -/
theorem transform_rows_match_type_shape (t : SearchTermTransformer)
    (search_results : List SearchTermRow) (ad_groups : List AdGroupRow) :
    (t.transform_search_terms_to_keywords search_results ad_groups).rows =
      search_results.flatMap (fun row =>
        if row.conversions > t.conversions_threshold ∨
            (row.ctr > lookupAdGroupCtr ad_groups row.ad_group_name ∧
              row.clicks > t.clicks_threshold) then
          if (pySplit row.search_term).length >
              t.search_term_tokens_threshold then
            [t.rowToAppend row MATCH_TYPE_BROAD]
          else
            [t.rowToAppend row MATCH_TYPE_EXACT,
             t.rowToAppend row MATCH_TYPE_PHRASE]
        else []) := by
  simp only [SearchTermTransformer.transform_search_terms_to_keywords]
  congr 1
  funext row
  exact flatMap_arg_eq t ad_groups row

/-- C3: the output columns are computed once from the configuration — the
eight core columns `Row type, Action, Account, Campaign, Ad group, Keyword,
Keyword match type, Label` in that order, then `Keyword landing page` and
`Keyword max CPC` appended in that order exactly when configured — and every
output row carries exactly that column set. -/
theorem transform_column_contract (t : SearchTermTransformer)
    (search_results : List SearchTermRow) (ad_groups : List AdGroupRow)
    (r : BulksheetRow)
    (hr : r ∈ (t.transform_search_terms_to_keywords search_results
      ad_groups).rows) :
    (t.transform_search_terms_to_keywords search_results ad_groups).columns =
      SA_360_BULKSHEET_COLUMNS ++
        ((if t.keyword_landing_page ≠ "" then
            [SA_360_COLUMN_KEYWORD_LANDING_PAGE] else []) ++
         (if cpcTruthy t.keyword_max_cpc then
            [SA_360_COLUMN_KEYWORD_MAX_CPC] else [])) ∧
    r.map Prod.fst =
      (t.transform_search_terms_to_keywords search_results ad_groups).columns ∧
    SA_360_BULKSHEET_COLUMNS =
      ["Row type", "Action", "Account", "Campaign", "Ad group", "Keyword",
       "Keyword match type", "Label"] := by
  refine ⟨?_, ?_, rfl⟩
  · simp [SearchTermTransformer.transform_search_terms_to_keywords,
      SearchTermTransformer.bulksheetColumns,
      SearchTermTransformer.optionalColumns, apply_ite (List.map Prod.fst)]
  · obtain ⟨row, match_type, heq⟩ :=
      mem_transform_rows t search_results ad_groups r hr
    rw [heq, rowToAppend_keys]
    rfl

/-- C3 witness: the column contract evaluated on the round-trip scenario
input (no optional columns configured). -/
theorem transform_column_contract_witness :
    (sampleTransformer.transform_search_terms_to_keywords [sampleRow]
      [sampleAdGroup]).columns =
      SA_360_BULKSHEET_COLUMNS ++
        ((if sampleTransformer.keyword_landing_page ≠ "" then
            [SA_360_COLUMN_KEYWORD_LANDING_PAGE] else []) ++
         (if cpcTruthy sampleTransformer.keyword_max_cpc then
            [SA_360_COLUMN_KEYWORD_MAX_CPC] else [])) ∧
    (sampleTransformer.rowToAppend sampleRow MATCH_TYPE_BROAD).map Prod.fst =
      (sampleTransformer.transform_search_terms_to_keywords [sampleRow]
        [sampleAdGroup]).columns ∧
    SA_360_BULKSHEET_COLUMNS =
      ["Row type", "Action", "Account", "Campaign", "Ad group", "Keyword",
       "Keyword match type", "Label"] :=
  transform_column_contract sampleTransformer [sampleRow] [sampleAdGroup]
    (sampleTransformer.rowToAppend sampleRow MATCH_TYPE_BROAD) (by decide)

/-- C4: a search-term row whose ad-group name does not occur in the ad-group
table is classified with baseline CTR `0` — the lookup yields `0`, the call
still returns, and the row qualifies exactly when
`conversions > conversions_threshold` or (`ctr > 0` and
`clicks > clicks_threshold`). -/
theorem missing_ad_group_ctr_zero (t : SearchTermTransformer)
    (row : SearchTermRow) (ad_groups : List AdGroupRow)
    (h : row.ad_group_name ∉ ad_groups.map AdGroupRow.ad_group_name) :
    lookupAdGroupCtr ad_groups row.ad_group_name = 0 ∧
    (t.getMatchType row ad_groups ≠ ("", "") ↔
      (row.conversions > t.conversions_threshold ∨
        (row.ctr > 0 ∧ row.clicks > t.clicks_threshold))) := by
  have hzero : lookupAdGroupCtr ad_groups row.ad_group_name = 0 := by
    unfold lookupAdGroupCtr
    rw [if_neg h]
  refine ⟨hzero, ?_⟩
  rw [getMatchType_ne_iff t row ad_groups, hzero]

/-- C4 witness: the missing-ad-group rule evaluated on the round-trip row
against an ad-group table that does not contain `ag1`. -/
theorem missing_ad_group_ctr_zero_witness :
    lookupAdGroupCtr [{ ad_group_name := "other", ctr := mkRat 9 10 }]
      sampleRow.ad_group_name = 0 ∧
    (sampleTransformer.getMatchType sampleRow
        [{ ad_group_name := "other", ctr := mkRat 9 10 }] ≠ ("", "") ↔
      (sampleRow.conversions > sampleTransformer.conversions_threshold ∨
        (sampleRow.ctr > 0 ∧
          sampleRow.clicks > sampleTransformer.clicks_threshold))) :=
  missing_ad_group_ctr_zero sampleTransformer sampleRow
    [{ ad_group_name := "other", ctr := mkRat 9 10 }] (by decide)

/-- C5 counterexample: with `keyword_max_cpc = "1E+30"` — a non-empty
string that the `Decimal` constructor parses — construction still fails,
because `round(Decimal("1E+30"), 2)` signals `InvalidOperation` (the
rounded coefficient would need 33 digits, above the context precision of
28). So "raises an error iff non-empty and not parseable as a decimal
number" is false at this input. -/
theorem parseable_max_cpc_error_cex :
    ¬(((mkSearchTermTransformer 5 0 3 "Google" "SA_add" ""
        "1E+30").isOk = false) ↔
      (("1E+30" : String) ≠ "" ∧ parseDecimal "1E+30" = none)) := by decide

/-- C5 amended: construction fails exactly when `keyword_max_cpc` is
non-empty and `round(Decimal(keyword_max_cpc), 2)` signals — either the
string is outside the decimal numeric-string grammar, or it denotes an
infinity, a signaling NaN, or a finite value whose rounded coefficient
exceeds the default context precision — and the failure happens before any
row is processed; a constructed transformer raises no exception on any
input: when no row qualifies, the call returns an empty output table. -/
theorem max_cpc_error_characterization
    (clicks_threshold conversions_threshold : ℚ) (tokens_threshold : ℕ)
    (account label landing_page cpc : String)
    (t : SearchTermTransformer) (search_results : List SearchTermRow)
    (ad_groups : List AdGroupRow)
    (hq : ∀ row ∈ search_results, t.getMatchType row ad_groups = ("", "")) :
    ((mkSearchTermTransformer clicks_threshold conversions_threshold
        tokens_threshold account label landing_page cpc).isOk = false ↔
      (cpc ≠ "" ∧ (parseDecimal cpc = none ∨
        (∃ d, parseDecimal cpc = some d ∧ roundDecimal2 d = none)))) ∧
    (t.transform_search_terms_to_keywords search_results ad_groups).rows
      = [] := by
  constructor
  · unfold mkSearchTermTransformer
    by_cases hc : cpc = ""
    · simp [hc, Except.isOk, Except.toBool]
    · cases hp : parseDecimal cpc with
      | none => simp [hc, hp, Except.isOk, Except.toBool]
      | some d =>
        cases hr : roundDecimal2 d <;>
          simp [hc, hp, hr, Except.isOk, Except.toBool]
  · simp only [SearchTermTransformer.transform_search_terms_to_keywords]
    rw [List.flatMap_eq_nil_iff]
    intro row hrow
    simp [hq row hrow]

/-- C5 witness: the configuration `"not a number"` fails to construct (it
does not parse), while a transformer whose single input row does not
qualify returns an empty table. -/
theorem max_cpc_error_characterization_witness :
    ((mkSearchTermTransformer 5 0 3 "Google" "SA_add" ""
        "not a number").isOk = false ↔
      (("not a number" : String) ≠ "" ∧
        (parseDecimal "not a number" = none ∨
          (∃ d, parseDecimal "not a number" = some d ∧
            roundDecimal2 d = none)))) ∧
    (sampleTransformer.transform_search_terms_to_keywords
      [{ search_term := "no interaction", conversions := 0, clicks := 0,
         ad_group_name := "ag1", campaign_name := "camp1", ctr := 0 }]
      [sampleAdGroup]).rows = [] :=
  max_cpc_error_characterization 5 0 3 "Google" "SA_add" ""
    "not a number" sampleTransformer
    [{ search_term := "no interaction", conversions := 0, clicks := 0,
       ad_group_name := "ag1", campaign_name := "camp1", ctr := 0 }]
    [sampleAdGroup] (by decide)

/-- C6 counterexample: a call with one search-term row and zero ad-group
rows completes with a non-empty output table (the row qualifies by
conversions with baseline CTR `0`), refuting "zero ad-group rows always
yields empty output". -/
theorem zero_ad_groups_nonempty_output_cex :
    (sampleTransformer.transform_search_terms_to_keywords [sampleRow]
      []).rows ≠ [] := by decide

/-- C6 amended: for every transformer and every ad-group input (empty
included), an empty search-term input completes and produces an empty output
table; with zero ad-group rows the call still completes, but its output need
not be empty. -/
theorem empty_search_terms_empty_output (t : SearchTermTransformer)
    (ad_groups : List AdGroupRow) :
    (t.transform_search_terms_to_keywords [] ad_groups).rows = [] := rfl

/-- C7: the round-trip scenario — row
`{search_term := "more than three tokens", conversions := 1, clicks := 6,
ctr := 1, ad_group_name := "ag1", campaign_name := "camp1"}`, ad-group table
`{ag1 ↦ 0.5}`, thresholds `(5, 0, 3)` — produces exactly one output row,
with match type `"broad"`, Campaign `"camp1"`, Ad group `"ag1"` and Keyword
`"more than three tokens"`. -/
theorem round_trip_scenario :
    (sampleTransformer.transform_search_terms_to_keywords [sampleRow]
      [sampleAdGroup]).rows =
      [[(SA_360_COLUMN_ROW_TYPE, CellValue.str "keyword"),
        (SA_360_COLUMN_ACTION, CellValue.str "create"),
        (SA_360_COLUMN_ACCOUNT, CellValue.str "Google"),
        (SA_360_COLUMN_CAMPAIGN, CellValue.str "camp1"),
        (SA_360_COLUMN_AD_GROUP, CellValue.str "ag1"),
        (SA_360_COLUMN_KEYWORD, CellValue.str "more than three tokens"),
        (SA_360_COLUMN_KEYWORD_MATCH_TYPE, CellValue.str "broad"),
        (SA_360_COLUMN_LABEL, CellValue.str "SA_add")]] := by decide

/-- C8: `_load_settings` fills every unset setting with its documented
default: clicks threshold `5`, conversions threshold `0`, token threshold
`3`, label `"SA_add"` and account name `"Google"`. -/
theorem load_settings_defaults (env : String → Option String)
    (h1 : env CLICKS_THRESHOLD = none)
    (h2 : env CONVERSIONS_THRESHOLD = none)
    (h3 : env SEARCH_TERMS_TOKENS_THRESHOLD = none)
    (h4 : env SA360_LABEL = none)
    (h5 : env SA360_ACCOUNT_NAME = none) :
    (loadSettings env).lookup CLICKS_THRESHOLD =
      some (SettingValue.int 5) ∧
    (loadSettings env).lookup CONVERSIONS_THRESHOLD =
      some (SettingValue.int 0) ∧
    (loadSettings env).lookup SEARCH_TERMS_TOKENS_THRESHOLD =
      some (SettingValue.int 3) ∧
    (loadSettings env).lookup SA360_LABEL =
      some (SettingValue.str "SA_add") ∧
    (loadSettings env).lookup SA360_ACCOUNT_NAME =
      some (SettingValue.str "Google") := by
  simp only [CLICKS_THRESHOLD, CONVERSIONS_THRESHOLD,
    SEARCH_TERMS_TOKENS_THRESHOLD, SA360_LABEL, SA360_ACCOUNT_NAME]
    at h1 h2 h3 h4 h5
  simp [loadSettings, REQUIRED_STR_SETTINGS, REQUIRED_NUMERIC_SETTINGS,
    OPTIONAL_SETTINGS, List.lookup, h1, h2, h3, h4, h5,
    GCP_PROJECT_ID, CUSTOMER_ID, SA360_SFTP_USERNAME, SA360_ACCOUNT_NAME,
    SA360_LABEL, CLICKS_THRESHOLD, CONVERSIONS_THRESHOLD,
    SEARCH_TERMS_TOKENS_THRESHOLD, CAMPAIGN_IDS, KEYWORD_LANDING_PAGE,
    KEYWORD_MAX_CPC, DEFAULT_CLICKS_THRESHOLD,
    DEFAULT_CONVERSIONS_THRESHOLD, DEFAULT_SEARCH_TERM_TOKENS_THRESHOLD,
    DEFAULT_SA360_LABEL, DEFAULT_SA360_ACCOUNT_NAME]

/-- C8 witness: the defaults materialize for the empty environment. -/
theorem load_settings_defaults_witness :
    (loadSettings (fun _ => none)).lookup CLICKS_THRESHOLD =
      some (SettingValue.int 5) ∧
    (loadSettings (fun _ => none)).lookup CONVERSIONS_THRESHOLD =
      some (SettingValue.int 0) ∧
    (loadSettings (fun _ => none)).lookup SEARCH_TERMS_TOKENS_THRESHOLD =
      some (SettingValue.int 3) ∧
    (loadSettings (fun _ => none)).lookup SA360_LABEL =
      some (SettingValue.str "SA_add") ∧
    (loadSettings (fun _ => none)).lookup SA360_ACCOUNT_NAME =
      some (SettingValue.str "Google") :=
  load_settings_defaults (fun _ => none) rfl rfl rfl rfl rfl

/-- A transformer whose configured max CPC parsed to the decimal value
zero. -/
def zeroCpcTransformer : SearchTermTransformer :=
  { clicks_threshold := 5, conversions_threshold := 0,
    search_term_tokens_threshold := 3, sa_account_name := "Google",
    sa_label := "SA_add", keyword_landing_page := "",
    keyword_max_cpc := some (.fin 0) }

/-- C9: a non-empty `keyword_max_cpc` string that parses and rounds to the
decimal value zero constructs successfully, stores max CPC `0` — which is
falsy — and therefore for every input the `Keyword max CPC` column is
omitted, exactly as if the configuration had been empty. -/
theorem zero_max_cpc_column_omitted
    (clicks_threshold conversions_threshold : ℚ) (tokens_threshold : ℕ)
    (account label landing_page cpc : String) (d : PyDecimal)
    (t : SearchTermTransformer)
    (hcpc : cpc ≠ "") (hp : parseDecimal cpc = some d)
    (hz : roundDecimal2 d = some (.fin 0))
    (hmk : mkSearchTermTransformer clicks_threshold conversions_threshold
      tokens_threshold account label landing_page cpc = .ok t) :
    t.keyword_max_cpc = some (.fin 0) ∧
    ∀ search_results ad_groups,
      t.transform_search_terms_to_keywords search_results ad_groups =
        SearchTermTransformer.transform_search_terms_to_keywords
          { t with keyword_max_cpc := none } search_results ad_groups ∧
      SA_360_COLUMN_KEYWORD_MAX_CPC ∉
        (t.transform_search_terms_to_keywords search_results
          ad_groups).columns := by
  have ht : t =
      { clicks_threshold := clicks_threshold,
        conversions_threshold := conversions_threshold,
        search_term_tokens_threshold := tokens_threshold,
        sa_account_name := account, sa_label := label,
        keyword_landing_page := landing_page,
        keyword_max_cpc := some (.fin 0) } := by
    unfold mkSearchTermTransformer at hmk
    rw [if_pos hcpc, hp] at hmk
    simp only [hz] at hmk
    exact (Except.ok.inj hmk).symm
  subst ht
  refine ⟨rfl, fun search_results ad_groups => ⟨?_, ?_⟩⟩
  · simp [SearchTermTransformer.transform_search_terms_to_keywords,
      SearchTermTransformer.bulksheetColumns,
      SearchTermTransformer.optionalColumns,
      SearchTermTransformer.rowToAppend,
      SearchTermTransformer.getMatchType, cpcTruthy]
  · by_cases hlp : landing_page = "" <;>
      simp [SearchTermTransformer.transform_search_terms_to_keywords,
        SearchTermTransformer.bulksheetColumns,
        SearchTermTransformer.optionalColumns, cpcTruthy, hlp,
        SA_360_BULKSHEET_COLUMNS, SA_360_COLUMN_ROW_TYPE,
        SA_360_COLUMN_ACTION, SA_360_COLUMN_ACCOUNT, SA_360_COLUMN_CAMPAIGN,
        SA_360_COLUMN_AD_GROUP, SA_360_COLUMN_KEYWORD,
        SA_360_COLUMN_KEYWORD_MATCH_TYPE, SA_360_COLUMN_LABEL,
        SA_360_COLUMN_KEYWORD_LANDING_PAGE, SA_360_COLUMN_KEYWORD_MAX_CPC]

/-- C9 witness: the configuration string `"0.00"` parses to zero and the
max-CPC column is absent from the concrete round-trip output. -/
theorem zero_max_cpc_column_omitted_witness :
    zeroCpcTransformer.keyword_max_cpc = some (.fin 0) ∧
    (zeroCpcTransformer.transform_search_terms_to_keywords [sampleRow]
        [sampleAdGroup] =
      SearchTermTransformer.transform_search_terms_to_keywords
        { zeroCpcTransformer with keyword_max_cpc := none } [sampleRow]
        [sampleAdGroup] ∧
     SA_360_COLUMN_KEYWORD_MAX_CPC ∉
      (zeroCpcTransformer.transform_search_terms_to_keywords [sampleRow]
        [sampleAdGroup]).columns) :=
  ⟨(zero_max_cpc_column_omitted 5 0 3 "Google" "SA_add" "" "0.00" (.fin 0)
      zeroCpcTransformer (by decide) (by decide) (by decide) rfl).1,
   (zero_max_cpc_column_omitted 5 0 3 "Google" "SA_add" "" "0.00" (.fin 0)
      zeroCpcTransformer (by decide) (by decide) (by decide) rfl).2
     [sampleRow] [sampleAdGroup]⟩

/-- C10: when the ad-group table contains several rows with the same
ad-group name, a search-term row referencing that name is classified with
the `ctr` of the first matching table row — later duplicates are ignored —
and the call still returns. -/
theorem duplicate_ad_group_first_match (t : SearchTermTransformer)
    (row : SearchTermRow) (pre post : List AdGroupRow) (g : AdGroupRow)
    (hpre : ∀ g' ∈ pre, g'.ad_group_name ≠ row.ad_group_name)
    (hg : g.ad_group_name = row.ad_group_name) :
    lookupAdGroupCtr (pre ++ g :: post) row.ad_group_name = g.ctr ∧
    t.getMatchType row (pre ++ g :: post) = t.getMatchType row [g] := by
  have hfilpre :
      pre.filter (fun x => x.ad_group_name = row.ad_group_name) = [] := by
    rw [List.filter_eq_nil_iff]
    intro a ha
    simp [hpre a ha]
  have hlook :
      lookupAdGroupCtr (pre ++ g :: post) row.ad_group_name = g.ctr := by
    unfold lookupAdGroupCtr
    rw [if_pos (hg ▸ List.mem_map_of_mem AdGroupRow.ad_group_name
      (List.mem_append_right pre (List.mem_cons_self g post)))]
    rw [List.filter_append, hfilpre, List.filter_cons_of_pos (by simp [hg])]
    rfl
  have hsingle : lookupAdGroupCtr [g] row.ad_group_name = g.ctr := by
    unfold lookupAdGroupCtr
    rw [if_pos (hg ▸ List.mem_map_of_mem AdGroupRow.ad_group_name
      (List.mem_cons_self g []))]
    rw [List.filter_cons_of_pos (by simp [hg])]
    rfl
  refine ⟨hlook, ?_⟩
  unfold SearchTermTransformer.getMatchType
  rw [hlook, hsingle]

/-- C10 witness: with a duplicated `ag1` entry later in the table, the
lookup and the classification use the first `ag1` row's CTR `0.5`. -/
theorem duplicate_ad_group_first_match_witness :
    lookupAdGroupCtr ([{ ad_group_name := "other", ctr := 1 }] ++
      sampleAdGroup :: [{ ad_group_name := "ag1", ctr := mkRat 9 10 }])
      sampleRow.ad_group_name = sampleAdGroup.ctr ∧
    sampleTransformer.getMatchType sampleRow
        ([{ ad_group_name := "other", ctr := 1 }] ++
          sampleAdGroup :: [{ ad_group_name := "ag1", ctr := mkRat 9 10 }]) =
      sampleTransformer.getMatchType sampleRow [sampleAdGroup] :=
  duplicate_ad_group_first_match sampleTransformer sampleRow
    [{ ad_group_name := "other", ctr := 1 }]
    [{ ad_group_name := "ag1", ctr := mkRat 9 10 }] sampleAdGroup
    (by decide) (by decide)

end Saka
